import Mathlib

/-!
Verification of the Paradox MG/SP serial-interface client.

This file gives a shallow embedding of the protocol codec
(src/paradox/protocol.py), the checksum helpers (src/paradox/commands.py),
the variable-length frame reader (src/paradox/connection.py) and the panel
session logic (src/paradox/panel.py), and proves properties of it.

Bytes are modelled as natural numbers; every byte stored by the code is in
[0,256) (a Python bytearray store raises ValueError outside that range, which
the builders model by returning none).  Frames are lists of bytes.  The
construct struct declarations are modelled by explicit sequential readers
over a byte list: a read past the end of the input fails (StreamError), a
Const mismatch fails, and trailing unread bytes are ignored, exactly as
construct's parse does.  Enum-typed fields are kept as their numeric codes.
-/

namespace Paradox

/-! ## protocol.py: checksum -/

/-- Checksum as the sum of all bytes modulo 256 (protocol.calculate_checksum). -/
def calculate_checksum (data : List Nat) : Nat :=
  data.sum % 256

/-! ## protocol.py: action tables -/

/-- Partition action codes (protocol.PARTITION_ACTIONS). -/
def PARTITION_ACTIONS (mode : String) : Option Nat :=
  if mode = "arm_stay" then some 0x01
  else if mode = "arm_sleep" then some 0x02
  else if mode = "arm" then some 0x04
  else if mode = "disarm" then some 0x05
  else if mode = "arm_stay_instant" then some 0x06
  else if mode = "arm_instant" then some 0x07
  else none

/-- Zone action codes (protocol.ZONE_ACTIONS); bypass and clear_bypass share 0x10. -/
def ZONE_ACTIONS (mode : String) : Option Nat :=
  if mode = "bypass" then some 0x10
  else if mode = "clear_bypass" then some 0x10
  else none

/-- PGM action codes (protocol.PGM_ACTIONS). -/
def PGM_ACTIONS (mode : String) : Option Nat :=
  if mode = "on" then some 0x32
  else if mode = "off" then some 0x33
  else if mode = "on_override" then some 0x34
  else if mode = "off_override" then some 0x35
  else none

/-! ## Nat-stream readers modelling the construct combinators -/

/-- Reads one byte (construct Int8ub); fails on an exhausted stream. -/
def readByte : List Nat → Option (Nat × List Nat)
  | [] => none
  | b :: s => some (b, s)

/-- Reads n raw bytes (construct Bytes(n) / Padding(n)); fails if fewer remain. -/
def readBytes (n : Nat) (s : List Nat) : Option (List Nat × List Nat) :=
  if n ≤ s.length then some (s.take n, s.drop n) else none

/-- Reads a big-endian 16-bit integer (construct Int16ub). -/
def readInt16ub (s : List Nat) : Option (Nat × List Nat) := do
  let (hi, s) ← readByte s
  let (lo, s) ← readByte s
  some (256 * hi + lo, s)

/-- Reads one byte that must equal c (construct Const(c, Int8ub)). -/
def readConst (c : Nat) (s : List Nat) : Option (List Nat) := do
  let (b, s) ← readByte s
  if b = c then some s else none

/-! ## protocol.py: message field records and their parsers -/

/-- Firmware version triple as in the construct sub-struct. -/
structure FirmwareVersion where
  version : Nat
  revision : Nat
  minor : Nat
deriving DecidableEq, Repr

/-- Fields of the InitiateCommunication request (0x72); the 34 padding bytes
are discarded on parse, as construct Padding does. -/
structure InitiateCommunicationFields where
  command : Nat
  user_id : Nat
  checksum : Nat
deriving DecidableEq, Repr

/-- Parses the InitiateCommunication struct (command Const 0x72, Padding(34),
user_id, checksum). -/
def InitiateCommunication_parse (data : List Nat) : Option InitiateCommunicationFields := do
  let s ← readConst 0x72 data
  let (_, s) ← readBytes 34 s
  let (user_id, s) ← readByte s
  let (checksum, _) ← readByte s
  some { command := 0x72, user_id, checksum }

/-- Fields of the InitiateCommunication response (0x72, result 0xFF). -/
structure InitiateCommunicationResponseFields where
  command : Nat
  result : Nat
  reserved_0 : List Nat
  product_id : Nat
  firmware_version : FirmwareVersion
  panel_id : Nat
  pc_password : List Nat
  modem_speed : Nat
  reserved_1 : List Nat
  source_id : Nat
  user_id : Nat
  receiver_line : List Nat
  reserved_2 : List Nat
  checksum : Nat
deriving DecidableEq, Repr

/-- Parses the InitiateCommunicationResponse struct (Const 0x72, Const 0xFF,
Bytes(4), product_id, firmware triple, Int16ub panel_id, Bytes(2) pc_password,
modem_speed, Bytes(14), source_id, user_id, Bytes(4) receiver_line, Bytes(1),
checksum). -/
def InitiateCommunicationResponse_parse (data : List Nat) :
    Option InitiateCommunicationResponseFields := do
  let s ← readConst 0x72 data
  let s ← readConst 0xFF s
  let (reserved_0, s) ← readBytes 4 s
  let (product_id, s) ← readByte s
  let (version, s) ← readByte s
  let (revision, s) ← readByte s
  let (minor, s) ← readByte s
  let (panel_id, s) ← readInt16ub s
  let (pc_password, s) ← readBytes 2 s
  let (modem_speed, s) ← readByte s
  let (reserved_1, s) ← readBytes 14 s
  let (source_id, s) ← readByte s
  let (user_id, s) ← readByte s
  let (receiver_line, s) ← readBytes 4 s
  let (reserved_2, s) ← readBytes 1 s
  let (checksum, _) ← readByte s
  some { command := 0x72, result := 0xFF, reserved_0, product_id,
         firmware_version := { version, revision, minor }, panel_id,
         pc_password, modem_speed, reserved_1, source_id, user_id,
         receiver_line, reserved_2, checksum }

/-- Fields of the InitializeCommunication MG/SP request (0x00). -/
structure InitializeCommunicationMGSPFields where
  command : Nat
  product_id : Nat
  firmware_version : FirmwareVersion
  panel_id : Nat
  pc_password : List Nat
  reserved_0 : List Nat
  source_id : Nat
  user_id : Nat
  reserved_1 : List Nat
  checksum : Nat
deriving DecidableEq, Repr

/-- Parses the InitializeCommunication_MGSP struct (Const 0x00, product_id,
firmware triple, Int16ub panel_id, Bytes(2) pc_password, Bytes(3), source_id,
user_id Const 0x00, Bytes(19), checksum). -/
def InitializeCommunication_MGSP_parse (data : List Nat) :
    Option InitializeCommunicationMGSPFields := do
  let s ← readConst 0x00 data
  let (product_id, s) ← readByte s
  let (version, s) ← readByte s
  let (revision, s) ← readByte s
  let (minor, s) ← readByte s
  let (panel_id, s) ← readInt16ub s
  let (pc_password, s) ← readBytes 2 s
  let (reserved_0, s) ← readBytes 3 s
  let (source_id, s) ← readByte s
  let s ← readConst 0x00 s
  let (reserved_1, s) ← readBytes 19 s
  let (checksum, _) ← readByte s
  some { command := 0x00, product_id,
         firmware_version := { version, revision, minor }, panel_id,
         pc_password, reserved_0, source_id, user_id := 0x00, reserved_1,
         checksum }

/-- Fields of the InitializeCommunication MG/SP response (0x10 or 0x70). -/
structure InitializeCommunicationResponseMGSPFields where
  command : Nat
  reserved_0 : List Nat
  user_id : Nat
  checksum : Nat
deriving DecidableEq, Repr

/-- Parses the InitializeCommunicationResponse_MGSP struct (command, Bytes(33),
user_id, checksum). -/
def InitializeCommunicationResponse_MGSP_parse (data : List Nat) :
    Option InitializeCommunicationResponseMGSPFields := do
  let (command, s) ← readByte data
  let (reserved_0, s) ← readBytes 33 s
  let (user_id, s) ← readByte s
  let (checksum, _) ← readByte s
  some { command, reserved_0, user_id, checksum }

/-- Fields of the PerformAction request (0x40). -/
structure PerformActionFields where
  command : Nat
  reserved_0 : List Nat
  action : Nat
  argument : Nat
  reserved_1 : List Nat
  source_id : Nat
  user_id : Nat
  checksum : Nat
deriving DecidableEq, Repr

/-- Parses the PerformAction struct (Const 0x40, Bytes(3), action, argument,
Bytes(27), source_id, user_id, checksum). -/
def PerformAction_parse (data : List Nat) : Option PerformActionFields := do
  let s ← readConst 0x40 data
  let (reserved_0, s) ← readBytes 3 s
  let (action, s) ← readByte s
  let (argument, s) ← readByte s
  let (reserved_1, s) ← readBytes 27 s
  let (source_id, s) ← readByte s
  let (user_id, s) ← readByte s
  let (checksum, _) ← readByte s
  some { command := 0x40, reserved_0, action, argument, reserved_1, source_id,
         user_id, checksum }

/-- Fields of the PerformAction response (0x40..0x4F). -/
structure PerformActionResponseFields where
  command : Nat
  reserved_0 : List Nat
  user_id : Nat
  checksum : Nat
deriving DecidableEq, Repr

/-- Parses the PerformActionResponse struct (command, Bytes(33), user_id,
checksum). -/
def PerformActionResponse_parse (data : List Nat) :
    Option PerformActionResponseFields := do
  let (command, s) ← readByte data
  let (reserved_0, s) ← readBytes 33 s
  let (user_id, s) ← readByte s
  let (checksum, _) ← readByte s
  some { command, reserved_0, user_id, checksum }

/-- Fields of the ReadEEPROM request (0x50). -/
structure ReadEEPROMFields where
  command : Nat
  reserved_0 : List Nat
  address : Nat
  records : Nat
  reserved_1 : List Nat
  source_id : Nat
  user_id : Nat
  checksum : Nat
deriving DecidableEq, Repr

/-- Parses the ReadEEPROM struct (Const 0x50, Bytes(1), Int16ub address,
records, Bytes(28), source_id, user_id, checksum). -/
def ReadEEPROM_parse (data : List Nat) : Option ReadEEPROMFields := do
  let s ← readConst 0x50 data
  let (reserved_0, s) ← readBytes 1 s
  let (address, s) ← readInt16ub s
  let (records, s) ← readByte s
  let (reserved_1, s) ← readBytes 28 s
  let (source_id, s) ← readByte s
  let (user_id, s) ← readByte s
  let (checksum, _) ← readByte s
  some { command := 0x50, reserved_0, address, records, reserved_1, source_id,
         user_id, checksum }

/-- Fields of the ReadEEPROM response (0x50..0x5F). -/
structure ReadEEPROMResponseFields where
  command : Nat
  reserved_0 : List Nat
  address : Nat
  records : Nat
  data : List Nat
  checksum : Nat
deriving DecidableEq, Repr

/-- Parses the ReadEEPROMResponse struct (command, Bytes(1), Int16ub address,
records, Bytes(27) data, checksum). -/
def ReadEEPROMResponse_parse (data : List Nat) :
    Option ReadEEPROMResponseFields := do
  let (command, s) ← readByte data
  let (reserved_0, s) ← readBytes 1 s
  let (address, s) ← readInt16ub s
  let (records, s) ← readByte s
  let (payload, s) ← readBytes (32 - 5) s
  let (checksum, _) ← readByte s
  some { command, reserved_0, address, records, data := payload, checksum }

/-- Fields of a LiveEvent message (0xE0..0xEF). -/
structure LiveEventFields where
  command : Nat
  reserved_0 : List Nat
  event_group : Nat
  event_1 : Nat
  event_2 : Nat
  partition : Nat
  module_serial : List Nat
  label_type : Nat
  label : List Nat
  reserved_1 : List Nat
  user_id : Nat
  checksum : Nat
deriving DecidableEq, Repr

/-- Parses the LiveEvent struct (command, Bytes(1), event_group, event_1,
event_2, partition, Bytes(4) module_serial, label_type, Bytes(16) label,
Bytes(6), user_id, checksum). -/
def LiveEvent_parse (data : List Nat) : Option LiveEventFields := do
  let (command, s) ← readByte data
  let (reserved_0, s) ← readBytes 1 s
  let (event_group, s) ← readByte s
  let (event_1, s) ← readByte s
  let (event_2, s) ← readByte s
  let (partition, s) ← readByte s
  let (module_serial, s) ← readBytes 4 s
  let (label_type, s) ← readByte s
  let (label, s) ← readBytes 16 s
  let (reserved_1, s) ← readBytes 6 s
  let (user_id, s) ← readByte s
  let (checksum, _) ← readByte s
  some { command, reserved_0, event_group, event_1, event_2, partition,
         module_serial, label_type, label, reserved_1, user_id, checksum }

/-! ## protocol.py: generic dispatch (get_parser_by_command / parse_message) -/

/-- The layouts that get_parser_by_command can select. -/
inductive ParserKind where
  | initiateCommunicationResponse
  | initializeCommunicationMGSP
  | initializeCommunicationResponseMGSP
  | performAction
  | readEEPROM
  | performActionResponse
  | readEEPROMResponse
  | liveEvent
deriving DecidableEq, Repr

/-- The exact-command dictionary inside get_parser_by_command.  The 0x40 and
0x50 entries are present in the source but shadowed by the range checks that
run before the dictionary lookup. -/
def parsers_dict (command_byte : Nat) : Option ParserKind :=
  if command_byte = 0x72 then some .initiateCommunicationResponse
  else if command_byte = 0x00 then some .initializeCommunicationMGSP
  else if command_byte = 0x10 then some .initializeCommunicationResponseMGSP
  else if command_byte = 0x70 then some .initializeCommunicationResponseMGSP
  else if command_byte = 0x40 then some .performAction
  else if command_byte = 0x50 then some .readEEPROM
  else none

/-- Selects a layout from the first byte of a message
(protocol.get_parser_by_command): the three half-open ranges are tested
before the exact-command dictionary. -/
def get_parser_by_command (command_byte : Nat) : Option ParserKind :=
  if 0x40 ≤ command_byte ∧ command_byte ≤ 0x4F then some .performActionResponse
  else if 0x50 ≤ command_byte ∧ command_byte ≤ 0x5F then some .readEEPROMResponse
  else if 0xE0 ≤ command_byte ∧ command_byte ≤ 0xEF then some .liveEvent
  else parsers_dict command_byte

/-- A successfully parsed message, tagged by the layout that parsed it. -/
inductive ParsedMessage where
  | initiateCommResp (f : InitiateCommunicationResponseFields)
  | initCommMGSP (f : InitializeCommunicationMGSPFields)
  | initCommRespMGSP (f : InitializeCommunicationResponseMGSPFields)
  | performAction (f : PerformActionFields)
  | performActionResp (f : PerformActionResponseFields)
  | readEEPROM (f : ReadEEPROMFields)
  | readEEPROMResp (f : ReadEEPROMResponseFields)
  | liveEvent (f : LiveEventFields)
deriving DecidableEq, Repr

/-- Generic decode (protocol.parse_message): none for inputs shorter than 2
bytes, unknown command bytes, and parse exceptions. -/
def parse_message (data : List Nat) : Option ParsedMessage :=
  if data.length < 2 then none
  else
    match get_parser_by_command (data.headD 0) with
    | none => none
    | some .initiateCommunicationResponse =>
        (InitiateCommunicationResponse_parse data).map ParsedMessage.initiateCommResp
    | some .initializeCommunicationMGSP =>
        (InitializeCommunication_MGSP_parse data).map ParsedMessage.initCommMGSP
    | some .initializeCommunicationResponseMGSP =>
        (InitializeCommunicationResponse_MGSP_parse data).map ParsedMessage.initCommRespMGSP
    | some .performAction =>
        (PerformAction_parse data).map ParsedMessage.performAction
    | some .performActionResponse =>
        (PerformActionResponse_parse data).map ParsedMessage.performActionResp
    | some .readEEPROM =>
        (ReadEEPROM_parse data).map ParsedMessage.readEEPROM
    | some .readEEPROMResponse =>
        (ReadEEPROMResponse_parse data).map ParsedMessage.readEEPROMResp
    | some .liveEvent =>
        (LiveEvent_parse data).map ParsedMessage.liveEvent

/-! ## protocol.py: builders

Each builder fills a zeroed 37-byte buffer at fixed offsets and writes the
checksum of the first 36 bytes as byte 36.  A Python bytearray item store
raises ValueError for a value outside [0,256); the builders return none in
that case (the exception is not caught anywhere in the repository). -/

/-- Builds InitiateCommunication: 0x72 at offset 0, user_id at 35,
checksum at 36. -/
def build_initiate_communication (user_id : Nat) : Option (List Nat) :=
  if user_id < 256 then
    let body := 0x72 :: (List.replicate 34 0 ++ [user_id])
    some (body ++ [calculate_checksum body])
  else none

/-- Builds InitializeCommunication_MGSP: 0x00 at offset 0, product_id at 1,
firmware triple at 2..4, panel_id big-endian at 5..6, the two password bytes
at 7..8, source_id at 12, user_id at 13 and 35, checksum at 36.  The password
is always the 2-byte output of encode_password at every call site (a
different length would resize the Python buffer; that path is unreachable
and modelled as none). -/
def build_initialize_communication_mgsp (product_id : Nat)
    (firmware_version : Nat × Nat × Nat) (panel_id : Nat)
    (pc_password_bytes : List Nat) (source_id user_id : Nat) :
    Option (List Nat) :=
  if product_id < 256 ∧ firmware_version.1 < 256 ∧ firmware_version.2.1 < 256 ∧
      firmware_version.2.2 < 256 ∧ pc_password_bytes.length = 2 ∧
      source_id < 256 ∧ user_id < 256 then
    let body := 0x00 :: product_id :: firmware_version.1 ::
      firmware_version.2.1 :: firmware_version.2.2 ::
      (panel_id / 256 % 256) :: (panel_id % 256) ::
      (pc_password_bytes ++ ([0, 0, 0] ++ ([source_id, user_id] ++
        (List.replicate 21 0 ++ [user_id]))))
    some (body ++ [calculate_checksum body])
  else none

/-- Builds PerformAction: 0x40 at offset 0, action at 4, argument at 5,
source_id at 33, user_id at 34 and 35, checksum at 36.  The argument is an
integer (panel.py passes partition - 1, which can be negative). -/
def build_perform_action (action : Nat) (argument : Int)
    (source_id user_id : Nat) : Option (List Nat) :=
  if action < 256 ∧ 0 ≤ argument ∧ argument < 256 ∧ source_id < 256 ∧
      user_id < 256 then
    let body := 0x40 :: 0 :: 0 :: 0 :: action :: argument.toNat ::
      (List.replicate 27 0 ++ [source_id, user_id, user_id])
    some (body ++ [calculate_checksum body])
  else none

/-- Builds ReadEEPROM: 0x50 at offset 0, address big-endian at 2..3, records
at 4, source_id at 33, user_id at 34 and 35, checksum at 36. -/
def build_read_eeprom (address : Nat) (records source_id user_id : Nat) :
    Option (List Nat) :=
  if records < 256 ∧ source_id < 256 ∧ user_id < 256 then
    let body := 0x50 :: 0 :: (address / 256 % 256) :: (address % 256) ::
      records :: (List.replicate 28 0 ++ [source_id, user_id, user_id])
    some (body ++ [calculate_checksum body])
  else none

/-! ## commands.py: checksum validation -/

/-- Validates a received frame (commands.validate_checksum): false for inputs
shorter than 2 bytes, otherwise compares the final byte with the checksum of
the preceding bytes. -/
def validate_checksum (data : List Nat) : Bool :=
  if data.length < 2 then false
  else data.getLastD 0 = calculate_checksum data.dropLast

/-! ## connection.py: variable-length frame reader

The serial port is modelled as the list of bytes it will deliver; a read of n
bytes returns up to n bytes (fewer when the stream runs out, as on a
timeout).  read_variable_length returns the frame read and the bytes left in
the stream. -/

/-- Reads one variable-length message (SerialConnection.read_variable_length
with its default max_length of 37): an empty stream gives an empty frame; a
first byte greater than 4 is taken as the message length, clamped to 37;
otherwise the standard length 37 is used; the remaining length - 1 bytes are
then read and appended after the first byte. -/
def read_variable_length (stream : List Nat) : List Nat × List Nat :=
  match stream with
  | [] => ([], [])
  | first_byte :: rest =>
    let message_length := if first_byte > 4 then min first_byte 37 else 37
    (first_byte :: rest.take (message_length - 1),
     rest.drop (message_length - 1))

/-! ## panel.py: session logic

Each operation is modelled as a pure function of the session state (the
_authenticated flag and panel_info), the operation's arguments, and the list
of frames the frame reader will deliver while the operation waits for its
response.  An operation returns an OpResult: the Python return value (none
when an uncaught exception propagates out of the method) together with the
frames written to the serial connection, in order. -/

/-- Result of a panel operation: the returned value (none when the operation
raises) and the frames written to the transport. -/
structure OpResult (α : Type) where
  result : Option α
  written : List (List Nat)
deriving DecidableEq, Repr

/-- Panel identity stored by initiate_communication in panel_info (the
derived firmware_string is omitted; enum fields keep their numeric codes). -/
structure PanelInfo where
  product_id : Nat
  firmware_version : Nat × Nat × Nat
  panel_id : Nat
  pc_password : List Nat
  source_id : Nat
deriving DecidableEq, Repr

/-- Waits for a frame whose first byte is one of the expected commands
(ParadoxPanel.wait_for_response): empty reads and frames with unexpected
commands are skipped; an exhausted stream models the timeout. -/
def wait_for_response (expected_command : List Nat) :
    List (List Nat) → Option (List Nat)
  | [] => none
  | data :: rest =>
    if data.length > 0 ∧ data.headD 0 ∈ expected_command then some data
    else wait_for_response expected_command rest

/-- Handshake (ParadoxPanel.initiate_communication): sends the 0x72 frame,
waits for a 0x72 response, and extracts panel_info from it; returns none
(with the request still written) on timeout or a parse failure. -/
def initiate_communication (frames : List (List Nat)) :
    OpResult (Option PanelInfo) :=
  match build_initiate_communication 0x00 with
  | none => ⟨none, []⟩
  | some cmd =>
    match wait_for_response [0x72] frames with
    | none => ⟨some none, [cmd]⟩
    | some response =>
      match InitiateCommunicationResponse_parse response with
      | none => ⟨some none, [cmd]⟩
      | some parsed =>
        ⟨some (some { product_id := parsed.product_id,
                      firmware_version := (parsed.firmware_version.version,
                        parsed.firmware_version.revision,
                        parsed.firmware_version.minor),
                      panel_id := parsed.panel_id,
                      pc_password := parsed.pc_password,
                      source_id := parsed.source_id }), [cmd]⟩

/-- True for an ASCII hexadecimal digit 0-9 / a-f / A-F (by character code:
48..57, 97..102, 65..70). -/
def is_hex_digit (c : Char) : Bool :=
  (48 ≤ c.toNat && c.toNat ≤ 57) || (97 ≤ c.toNat && c.toNat ≤ 102) ||
  (65 ≤ c.toNat && c.toNat ≤ 70)

/-- Numeric value of an ASCII hexadecimal digit (0 for other characters). -/
def hex_val (c : Char) : Nat :=
  if 48 ≤ c.toNat && c.toNat ≤ 57 then c.toNat - 48
  else if 97 ≤ c.toNat && c.toNat ≤ 102 then c.toNat - 97 + 10
  else if 65 ≤ c.toNat && c.toNat ≤ 70 then c.toNat - 65 + 10
  else 0

/-- True for the ASCII whitespace characters Python strips around an int
literal (space, tab, newline, carriage return, vertical tab, form feed). -/
def is_py_space (c : Char) : Bool :=
  c.toNat = 32 || c.toNat = 9 || c.toNat = 10 || c.toNat = 13 ||
  c.toNat = 11 || c.toNat = 12

/-- Semantics of the Python call int(s, 16) restricted to the two-character
ASCII strings encode_password passes it: after stripping surrounding
whitespace the text must be an optionally signed run of hex digits (a
two-character input leaves room for at most one digit next to a sign or a
stripped space), and a lone 0x prefix or an underscore is rejected. -/
def py_int_hex2 (c1 c2 : Char) : Option Int :=
  if is_hex_digit c1 && is_hex_digit c2 then
    some ((16 * hex_val c1 + hex_val c2 : Nat) : Int)
  else if is_py_space c1 && is_hex_digit c2 then some ((hex_val c2 : Nat) : Int)
  else if is_hex_digit c1 && is_py_space c2 then some ((hex_val c1 : Nat) : Int)
  else if c1.toNat = 43 && is_hex_digit c2 then some ((hex_val c2 : Nat) : Int)
  else if c1.toNat = 45 && is_hex_digit c2 then some (-((hex_val c2 : Nat) : Int))
  else none

/-- Encodes the PC password (ParadoxPanel.encode_password): raises (none) when
the string is not exactly 4 characters; otherwise converts each 2-character
half with int(-, 16) and packs the two values with bytes([byte1, byte2]),
whose range check rejects values outside [0,256); every conversion or range
failure raises ValueError (none). -/
def encode_password (password : String) : Option (List Nat) :=
  match password.toList with
  | [a, b, c, d] =>
    match py_int_hex2 a b, py_int_hex2 c d with
    | some byte1, some byte2 =>
      if 0 ≤ byte1 ∧ byte1 < 256 ∧ 0 ≤ byte2 ∧ byte2 < 256 then
        some [byte1.toNat, byte2.toNat]
      else none
    | _, _ => none
  | _ => none

/-- Authentication (ParadoxPanel.initialize_communication): requires
panel_info from a previous handshake, encodes the configured password (an
encoding failure propagates as an exception before anything is written),
sends the 0x00 frame built from the identity, and waits for a 0x10 (success)
or 0x70 (wrong password) response; returns true and sets _authenticated only
on 0x10. -/
def initialize_communication (panel_info : Option PanelInfo)
    (pc_password : String) (frames : List (List Nat)) : OpResult Bool :=
  match panel_info with
  | none => ⟨some false, []⟩
  | some info =>
    match encode_password pc_password with
    | none => ⟨none, []⟩
    | some pc_password_bytes =>
      match build_initialize_communication_mgsp info.product_id
          info.firmware_version info.panel_id pc_password_bytes 0x01 0x00 with
      | none => ⟨none, []⟩
      | some cmd =>
        match wait_for_response [0x10, 0x70] frames with
        | none => ⟨some false, [cmd]⟩
        | some response =>
          ⟨some (response.headD 0 == 0x10), [cmd]⟩

/-- Arms a partition (ParadoxPanel.arm_partition): rejected without any write
when not authenticated or when the mode is unknown; otherwise sends a
PerformAction frame with the mode's action code and the 0-indexed partition,
and succeeds exactly when the awaited 0x40..0x4F response has command 0x40. -/
def arm_partition (authenticated : Bool) (frames : List (List Nat))
    (partition : Int) (mode : String) : OpResult Bool :=
  if !authenticated then ⟨some false, []⟩
  else
    match PARTITION_ACTIONS mode with
    | none => ⟨some false, []⟩
    | some action_code =>
      match build_perform_action action_code (partition - 1) 0x01 0x00 with
      | none => ⟨none, []⟩
      | some cmd =>
        match wait_for_response (List.range' 0x40 16) frames with
        | none => ⟨some false, [cmd]⟩
        | some response => ⟨some (response.headD 0 == 0x40), [cmd]⟩

/-- Disarms a partition (ParadoxPanel.disarm_partition): the same pattern as
arm_partition with the fixed disarm action code 0x05. -/
def disarm_partition (authenticated : Bool) (frames : List (List Nat))
    (partition : Int) : OpResult Bool :=
  if !authenticated then ⟨some false, []⟩
  else
    match build_perform_action 0x05 (partition - 1) 0x01 0x00 with
    | none => ⟨none, []⟩
    | some cmd =>
      match wait_for_response (List.range' 0x40 16) frames with
      | none => ⟨some false, [cmd]⟩
      | some response => ⟨some (response.headD 0 == 0x40), [cmd]⟩

/-- Bypasses a zone (ParadoxPanel.bypass_zone): the same pattern with the
bypass action code 0x10 and the 0-indexed zone. -/
def bypass_zone (authenticated : Bool) (frames : List (List Nat))
    (zone : Int) : OpResult Bool :=
  if !authenticated then ⟨some false, []⟩
  else
    match build_perform_action 0x10 (zone - 1) 0x01 0x00 with
    | none => ⟨none, []⟩
    | some cmd =>
      match wait_for_response (List.range' 0x40 16) frames with
      | none => ⟨some false, [cmd]⟩
      | some response => ⟨some (response.headD 0 == 0x40), [cmd]⟩

/-- Reads EEPROM memory (ParadoxPanel.read_status): not-authenticated and
timeout and response-parse failures all return none as the Python value does;
on a parsed 0x50..0x5F response the data payload is returned. -/
def read_status (authenticated : Bool) (frames : List (List Nat))
    (address records : Nat) : OpResult (Option (List Nat)) :=
  if !authenticated then ⟨some none, []⟩
  else
    match build_read_eeprom address records 0x01 0x00 with
    | none => ⟨none, []⟩
    | some cmd =>
      match wait_for_response (List.range' 0x50 16) frames with
      | none => ⟨some none, [cmd]⟩
      | some response =>
        match ReadEEPROMResponse_parse response with
        | none => ⟨some none, [cmd]⟩
        | some parsed => ⟨some (some parsed.data), [cmd]⟩

/-! ## panel.py: live-event monitoring -/

/-- Event record assembled by ParadoxPanel.handle_live_event; the label holds
the byte codes of the decoded characters. -/
structure EventInfo where
  command : Nat
  event_group : Nat
  event_1 : Nat
  event_2 : Nat
  partition : Nat
  label_type : Nat
  label : List Nat
deriving DecidableEq, Repr

/-- Strips NUL bytes from both ends, as the Python str.strip of a NUL does. -/
def strip_nul (l : List Nat) : List Nat :=
  ((l.dropWhile (· == 0)).reverse.dropWhile (· == 0)).reverse

/-- Decodes one live event (ParadoxPanel.handle_live_event): a parse failure
is caught and yields none; the label is decoded as ASCII with non-ASCII
bytes ignored and then stripped of NULs. -/
def handle_live_event (event_data : List Nat) : Option EventInfo :=
  match LiveEvent_parse event_data with
  | none => none
  | some parsed =>
    some { command := parsed.command, event_group := parsed.event_group,
           event_1 := parsed.event_1, event_2 := parsed.event_2,
           partition := parsed.partition, label_type := parsed.label_type,
           label := strip_nul (parsed.label.filter (fun b => decide (b < 128))) }

/-- One pass of the polling loop in ParadoxPanel.monitor_events, fuelled so
that the recursion is structural: while bytes are available, one frame is
read with read_variable_length; a non-empty frame whose command byte is in
0xE0..0xEF is decoded and yielded when handle_live_event succeeds; other
frames and undecodable events are skipped and polling continues. -/
def monitor_events_loop (fuel : Nat) (stream : List Nat) : List EventInfo :=
  match fuel, stream with
  | 0, _ => []
  | _ + 1, [] => []
  | fuel + 1, first_byte :: rest =>
    let fr := read_variable_length (first_byte :: rest)
    let yielded :=
      if fr.1.length > 0 ∧ 0xE0 ≤ fr.1.headD 0 ∧ fr.1.headD 0 ≤ 0xEF then
        match handle_live_event fr.1 with
        | some event => [event]
        | none => []
      else []
    yielded ++ monitor_events_loop fuel fr.2

/-- Event polling loop (ParadoxPanel.monitor_events) applied to the byte
stream the serial port will deliver.  Every iteration of the loop consumes
at least one byte of the stream, so stream.length rounds of fuel drain it
completely; the Python loop itself only stops on its optional duration bound
or an interrupt, which arrive after the simulated stream is exhausted. -/
def monitor_events (stream : List Nat) : List EventInfo :=
  monitor_events_loop stream.length stream

/-! ## Concrete sample data used by individual claims -/

/-- A 37-byte InitiateCommunication response whose bytes at offsets 27, 28,
29 and 30 are pairwise distinct (77, 88, 99, 111): product MG5050 (4),
firmware 1.2.3, panel id 0x04D2 = 1234, pc password bytes 0xAA 0xBB. -/
def sample_identity_frame : List Nat :=
  0x72 :: 0xFF :: 0x00 :: 0x00 :: 0x00 :: 0x00 :: 0x04 :: 0x01 :: 0x02 ::
  0x03 :: 0x04 :: 0xD2 :: 0xAA :: 0xBB :: 0x00 ::
  (List.replicate 12 0 ++ (77 :: 88 :: 99 :: 111 :: ([5, 6, 7, 8] ++ [0, 0])))

/-- A 37-byte live-event frame: command 0xE1, event group 1, events 2 and 3,
partition 2, label type 1, label "Front Door" padded with NULs to 16 bytes. -/
def front_door_frame : List Nat :=
  0xE1 :: 0x00 :: 0x01 :: 0x02 :: 0x03 :: 0x02 ::
  ([0x10, 0x20, 0x30, 0x40] ++ (0x01 ::
    (([0x46, 0x72, 0x6F, 0x6E, 0x74, 0x20, 0x44, 0x6F, 0x6F, 0x72] ++
      List.replicate 6 0) ++
     (List.replicate 6 0 ++ [0x00, 0x00, 0x00, 0x00]))))

/-- The event record that front_door_frame decodes to. -/
def front_door_event : EventInfo :=
  { command := 0xE1, event_group := 0x01, event_1 := 0x02, event_2 := 0x03,
    partition := 0x02, label_type := 0x01,
    label := [0x46, 0x72, 0x6F, 0x6E, 0x74, 0x20, 0x44, 0x6F, 0x6F, 0x72] }

/-! ## Shared helper lemmas -/

/-- Appending the checksum byte to a 36-byte body gives a 37-byte frame whose
final byte is the sum of its first 36 bytes modulo 256. -/
theorem frame_checksum_spec (body : List Nat) (h : body.length = 36) :
    (body ++ [calculate_checksum body]).length = 37 ∧
    (body ++ [calculate_checksum body]).getLastD 0 =
      ((body ++ [calculate_checksum body]).take 36).sum % 256 := by
  refine ⟨by simp [h], ?_⟩
  rw [List.getLastD_concat, List.take_left' h, calculate_checksum]

/-- Every partition action code in the table is a valid byte value. -/
theorem PARTITION_ACTIONS_lt (mode : String) (code : Nat)
    (h : PARTITION_ACTIONS mode = some code) : code < 256 := by
  unfold PARTITION_ACTIONS at h
  split_ifs at h <;> simp_all <;> omega

/-- Every ASCII hex digit has value below 16. -/
theorem hex_val_lt (c : Char) : hex_val c < 16 := by
  unfold hex_val
  split_ifs with h1 h2 h3 <;>
    simp only [Bool.and_eq_true, decide_eq_true_eq] at * <;> omega

/-- Layout of a built PerformAction frame: for in-range arguments the builder
succeeds and the frame carries the command, action, argument, source and user
bytes at their offsets. -/
theorem build_perform_action_spec (a : Nat) (g : Int) (s u : Nat)
    (ha : a < 256) (hg0 : 0 ≤ g) (hg : g < 256) (hs : s < 256) (hu : u < 256) :
    ∃ f, build_perform_action a g s u = some f ∧ f.length = 37 ∧
      f.headD 0 = 0x40 ∧ f.getD 4 0 = a ∧ f.getD 5 0 = g.toNat ∧
      f.getD 33 0 = s ∧ f.getD 34 0 = u ∧ f.getD 35 0 = u := by
  refine ⟨(0x40 :: 0 :: 0 :: 0 :: a :: g.toNat ::
      (List.replicate 27 0 ++ [s, u, u])) ++
      [calculate_checksum (0x40 :: 0 :: 0 :: 0 :: a :: g.toNat ::
        (List.replicate 27 0 ++ [s, u, u]))],
    ?_, by rfl, by rfl, by rfl, by rfl, by rfl, by rfl, by rfl⟩
  simp [build_perform_action, ha, hg0, hg, hs, hu]

/-- Behaviour of arm_partition in the authenticated state for an in-range
partition: the built PerformAction frame is the only write, it carries the
action code at offset 4 and the 0-indexed partition at offset 5, and the
result is true exactly when the first delivered frame with a command in
0x40..0x4F has command 0x40. -/
theorem arm_partition_auth_spec (frames : List (List Nat)) (partition : Int)
    (mode : String) (code : Nat)
    (hc : PARTITION_ACTIONS mode = some code)
    (hp1 : 1 ≤ partition) (hp256 : partition ≤ 256) :
    ∃ cmd, (arm_partition true frames partition mode).written = [cmd] ∧
      cmd.length = 37 ∧ cmd.getD 4 0 = code ∧
      cmd.getD 5 0 = (partition - 1).toNat ∧
      ((arm_partition true frames partition mode).result = some true ↔
        ∃ response, wait_for_response (List.range' 0x40 16) frames = some response ∧
          response.headD 0 = 0x40) := by
  obtain ⟨cmd, hbuild, hlen, hhead, h4, h5, h33, h34, h35⟩ :=
    build_perform_action_spec code (partition - 1) 0x01 0x00
      (PARTITION_ACTIONS_lt mode code hc) (by omega) (by omega)
      (by decide) (by decide)
  refine ⟨cmd, ?_, hlen, h4, h5, ?_⟩
  · cases hw : wait_for_response (List.range' 0x40 16) frames <;>
      simp [arm_partition, hc, hbuild, hw]
  · cases hw : wait_for_response (List.range' 0x40 16) frames <;>
      simp [arm_partition, hc, hbuild, hw]

/-- Behaviour of disarm_partition in the authenticated state for an in-range
partition. -/
theorem disarm_partition_auth_spec (frames : List (List Nat)) (partition : Int)
    (hp1 : 1 ≤ partition) (hp256 : partition ≤ 256) :
    ∃ cmd, (disarm_partition true frames partition).written = [cmd] ∧
      cmd.length = 37 ∧ cmd.getD 4 0 = 0x05 ∧
      cmd.getD 5 0 = (partition - 1).toNat := by
  obtain ⟨cmd, hbuild, hlen, hhead, h4, h5, h33, h34, h35⟩ :=
    build_perform_action_spec 0x05 (partition - 1) 0x01 0x00
      (by decide) (by omega) (by omega) (by decide) (by decide)
  refine ⟨cmd, ?_, hlen, h4, h5⟩
  cases hw : wait_for_response (List.range' 0x40 16) frames <;>
    simp [disarm_partition, hbuild, hw]

/-- Behaviour of bypass_zone in the authenticated state for an in-range
zone. -/
theorem bypass_zone_auth_spec (frames : List (List Nat)) (zone : Int)
    (hz1 : 1 ≤ zone) (hz256 : zone ≤ 256) :
    ∃ cmd, (bypass_zone true frames zone).written = [cmd] ∧
      cmd.length = 37 ∧ cmd.getD 4 0 = 0x10 ∧
      cmd.getD 5 0 = (zone - 1).toNat := by
  obtain ⟨cmd, hbuild, hlen, hhead, h4, h5, h33, h34, h35⟩ :=
    build_perform_action_spec 0x10 (zone - 1) 0x01 0x00
      (by decide) (by omega) (by omega) (by decide) (by decide)
  refine ⟨cmd, ?_, hlen, h4, h5⟩
  cases hw : wait_for_response (List.range' 0x40 16) frames <;>
    simp [bypass_zone, hbuild, hw]

/-- An out-of-range argument makes build_perform_action fail. -/
theorem build_perform_action_fails (a : Nat) (g : Int) (s u : Nat)
    (hg : g < 0 ∨ 256 ≤ g) : build_perform_action a g s u = none := by
  unfold build_perform_action
  rw [if_neg]
  rintro ⟨-, h0, h2, -, -⟩
  rcases hg with hg | hg <;> omega

/-! ## Claims -/

/-- C7: every frame produced by the builders (InitiateCommunication,
InitializeCommunication MG/SP, PerformAction, ReadEEPROM) is exactly 37
bytes long and its final byte equals the sum of its first 36 bytes modulo
256, for all in-byte-range field arguments. -/
theorem C7_encode_checksum_invariant :
    (∀ u, u < 256 → ∃ f, build_initiate_communication u = some f ∧
      f.length = 37 ∧ f.getLastD 0 = (f.take 36).sum % 256) ∧
    (∀ pid fw pan pw s u, pid < 256 → fw.1 < 256 → fw.2.1 < 256 →
      fw.2.2 < 256 → pw.length = 2 → s < 256 → u < 256 →
      ∃ f, build_initialize_communication_mgsp pid fw pan pw s u = some f ∧
        f.length = 37 ∧ f.getLastD 0 = (f.take 36).sum % 256) ∧
    (∀ a g s u, a < 256 → 0 ≤ g → g < 256 → s < 256 → u < 256 →
      ∃ f, build_perform_action a g s u = some f ∧
        f.length = 37 ∧ f.getLastD 0 = (f.take 36).sum % 256) ∧
    (∀ addr r s u, r < 256 → s < 256 → u < 256 →
      ∃ f, build_read_eeprom addr r s u = some f ∧
        f.length = 37 ∧ f.getLastD 0 = (f.take 36).sum % 256) := by
  refine ⟨?_, ?_, ?_, ?_⟩
  · intro u hu
    have h := frame_checksum_spec (0x72 :: (List.replicate 34 0 ++ [u]))
      (by simp)
    exact ⟨_, by simp [build_initiate_communication, hu], h.1, h.2⟩
  · intro pid fw pan pw s u h1 h2 h3 h4 h5 h6 h7
    have h := frame_checksum_spec (0x00 :: pid :: fw.1 :: fw.2.1 :: fw.2.2 ::
      (pan / 256 % 256) :: (pan % 256) :: (pw ++ ([0, 0, 0] ++ ([s, u] ++
        (List.replicate 21 0 ++ [u]))))) (by simp [h5])
    exact ⟨_,
      by simp [build_initialize_communication_mgsp, h1, h2, h3, h4, h5, h6, h7],
      h.1, h.2⟩
  · intro a g s u h1 h2 h3 h4 h5
    have h := frame_checksum_spec (0x40 :: 0 :: 0 :: 0 :: a :: g.toNat ::
      (List.replicate 27 0 ++ [s, u, u])) (by simp)
    exact ⟨_, by simp [build_perform_action, h1, h2, h3, h4, h5], h.1, h.2⟩
  · intro addr r s u h1 h2 h3
    have h := frame_checksum_spec (0x50 :: 0 :: (addr / 256 % 256) ::
      (addr % 256) :: r :: (List.replicate 28 0 ++ [s, u, u])) (by simp)
    exact ⟨_, by simp [build_read_eeprom, h1, h2, h3], h.1, h.2⟩

/-- Witness for C7 at concrete arguments. -/
theorem C7_witness :
    (∃ f, build_initiate_communication 0x00 = some f ∧
      f.length = 37 ∧ f.getLastD 0 = (f.take 36).sum % 256) ∧
    (∃ f, build_initialize_communication_mgsp 4 (1, 2, 3) 1234 [0xAA, 0xBB]
        1 0 = some f ∧ f.length = 37 ∧ f.getLastD 0 = (f.take 36).sum % 256) ∧
    (∃ f, build_perform_action 4 2 1 0 = some f ∧
      f.length = 37 ∧ f.getLastD 0 = (f.take 36).sum % 256) ∧
    (∃ f, build_read_eeprom 0x0010 1 1 0 = some f ∧
      f.length = 37 ∧ f.getLastD 0 = (f.take 36).sum % 256) := by
  obtain ⟨h1, h2, h3, h4⟩ := C7_encode_checksum_invariant
  exact ⟨h1 0x00 (by decide),
    h2 4 (1, 2, 3) 1234 [0xAA, 0xBB] 1 0 (by decide) (by decide) (by decide)
      (by decide) (by decide) (by decide) (by decide),
    h3 4 2 1 0 (by decide) (by decide) (by decide) (by decide) (by decide),
    h4 0x0010 1 1 0 (by decide) (by decide) (by decide)⟩

/-- C3: outside the authenticated state, arm, disarm, zone bypass and memory
read all return the failure value immediately and write nothing to the
transport. -/
theorem C3_state_gating (partition zone : Int) (mode : String)
    (address records : Nat) (frames : List (List Nat)) :
    arm_partition false frames partition mode = ⟨some false, []⟩ ∧
    disarm_partition false frames partition = ⟨some false, []⟩ ∧
    bypass_zone false frames zone = ⟨some false, []⟩ ∧
    read_status false frames address records = ⟨some none, []⟩ :=
  ⟨rfl, rfl, rfl, rfl⟩

/-- C6: the frame reader returns an empty result on an empty stream, uses
the standard length 37 when the first byte is at most 4, and otherwise uses
the first byte's value clamped to 37, reading length - 1 further bytes after
the first; in particular first byte 10 gives a 10-byte frame and first byte
200 a 37-byte frame. -/
theorem C6_framing_heuristic :
    (read_variable_length [] = ([], [])) ∧
    (∀ b rest, b ≤ 4 →
      read_variable_length (b :: rest) = (b :: rest.take 36, rest.drop 36)) ∧
    (∀ b rest, 4 < b →
      read_variable_length (b :: rest) =
        (b :: rest.take (min b 37 - 1), rest.drop (min b 37 - 1))) ∧
    (∀ b rest, b ≤ 4 → 36 ≤ rest.length →
      (read_variable_length (b :: rest)).1.length = 37) ∧
    (∀ rest : List Nat, 9 ≤ rest.length →
      (read_variable_length (10 :: rest)).1.length = 10) ∧
    (∀ rest : List Nat, 36 ≤ rest.length →
      (read_variable_length (200 :: rest)).1.length = 37) := by
  refine ⟨rfl, ?_, ?_, ?_, ?_, ?_⟩
  · intro b rest h
    simp only [read_variable_length]
    rw [if_neg (show ¬ (b > 4) by omega)]
  · intro b rest h
    simp only [read_variable_length]
    rw [if_pos h]
  · intro b rest h h36
    simp only [read_variable_length]
    rw [if_neg (show ¬ (b > 4) by omega)]
    simp only [List.length_cons, List.length_take]
    omega
  · intro rest h
    simp only [read_variable_length]
    rw [if_pos (show 10 > 4 by decide)]
    simp only [List.length_cons, List.length_take]
    omega
  · intro rest h
    simp only [read_variable_length]
    rw [if_pos (show 200 > 4 by decide)]
    simp only [List.length_cons, List.length_take]
    omega

/-- Witness for C6 at concrete streams. -/
theorem C6_witness :
    read_variable_length (3 :: List.replicate 40 7) =
      (3 :: (List.replicate 40 7).take 36, (List.replicate 40 7).drop 36) ∧
    (read_variable_length (3 :: List.replicate 40 7)).1.length = 37 ∧
    (read_variable_length (10 :: List.replicate 40 7)).1.length = 10 ∧
    (read_variable_length (200 :: List.replicate 40 7)).1.length = 37 := by
  obtain ⟨-, h2, -, h4, h5, h6⟩ := C6_framing_heuristic
  exact ⟨h2 3 _ (by decide), h4 3 _ (by decide) (by simp),
    h5 _ (by simp), h6 _ (by simp)⟩

/-- C5: for every partition in 1..8 and every arm mode, arming in the
authenticated state writes one 37-byte frame whose action byte (offset 4) is
the table code for the mode and whose argument byte (offset 5) is
partition - 1, and the result is success exactly when the awaited response
frame's command byte is 0x40. -/
theorem C5_arm_action_mapping (partition : Int) (hp1 : 1 ≤ partition)
    (hp8 : partition ≤ 8) (mode : String)
    (hm : mode ∈ ["arm", "arm_stay", "arm_sleep", "arm_instant",
      "arm_stay_instant"]) (frames : List (List Nat)) :
    ∃ code cmd, PARTITION_ACTIONS mode = some code ∧
      (arm_partition true frames partition mode).written = [cmd] ∧
      cmd.length = 37 ∧ cmd.getD 4 0 = code ∧
      cmd.getD 5 0 = (partition - 1).toNat ∧
      ((arm_partition true frames partition mode).result = some true ↔
        ∃ response, wait_for_response (List.range' 0x40 16) frames =
            some response ∧ response.headD 0 = 0x40) := by
  have hp256 : partition ≤ 256 := by omega
  simp only [List.mem_cons, List.not_mem_nil, or_false] at hm
  rcases hm with rfl | rfl | rfl | rfl | rfl
  · obtain ⟨cmd, hw, hlen, h4, h5, hiff⟩ :=
      arm_partition_auth_spec frames partition "arm" 0x04 (by decide) hp1 hp256
    exact ⟨0x04, cmd, by decide, hw, hlen, h4, h5, hiff⟩
  · obtain ⟨cmd, hw, hlen, h4, h5, hiff⟩ :=
      arm_partition_auth_spec frames partition "arm_stay" 0x01 (by decide)
        hp1 hp256
    exact ⟨0x01, cmd, by decide, hw, hlen, h4, h5, hiff⟩
  · obtain ⟨cmd, hw, hlen, h4, h5, hiff⟩ :=
      arm_partition_auth_spec frames partition "arm_sleep" 0x02 (by decide)
        hp1 hp256
    exact ⟨0x02, cmd, by decide, hw, hlen, h4, h5, hiff⟩
  · obtain ⟨cmd, hw, hlen, h4, h5, hiff⟩ :=
      arm_partition_auth_spec frames partition "arm_instant" 0x07 (by decide)
        hp1 hp256
    exact ⟨0x07, cmd, by decide, hw, hlen, h4, h5, hiff⟩
  · obtain ⟨cmd, hw, hlen, h4, h5, hiff⟩ :=
      arm_partition_auth_spec frames partition "arm_stay_instant" 0x06
        (by decide) hp1 hp256
    exact ⟨0x06, cmd, by decide, hw, hlen, h4, h5, hiff⟩

/-- Witness for C5: arming partition 3 in mode arm_stay against a stream
delivering one 0x40 response succeeds with action byte 1 and argument 2. -/
theorem C5_witness :
    ∃ code cmd, PARTITION_ACTIONS "arm_stay" = some code ∧
      (arm_partition true [[0x40]] 3 "arm_stay").written = [cmd] ∧
      cmd.length = 37 ∧ cmd.getD 4 0 = code ∧
      cmd.getD 5 0 = ((3 : Int) - 1).toNat ∧
      ((arm_partition true [[0x40]] 3 "arm_stay").result = some true ↔
        ∃ response, wait_for_response (List.range' 0x40 16) [[0x40]] =
            some response ∧ response.headD 0 = 0x40) :=
  C5_arm_action_mapping 3 (by decide) (by decide) "arm_stay" (by decide) [[0x40]]

/-- C10: arm, disarm and zone bypass never check the documented partition or
zone ranges: in the authenticated state every argument n with n - 1 in
[0,255] produces exactly one written frame carrying argument byte n - 1,
while every argument outside [1,256] makes the frame builder raise an
uncaught exception (result none) with nothing written. -/
theorem C10_argument_range_totality :
    (∀ (frames : List (List Nat)) (mode : String) (code : Nat) (n : Int),
      PARTITION_ACTIONS mode = some code → 1 ≤ n → n ≤ 256 →
      ∃ cmd, (arm_partition true frames n mode).written = [cmd] ∧
        cmd.getD 5 0 = (n - 1).toNat) ∧
    (∀ (frames : List (List Nat)) (mode : String) (code : Nat) (n : Int),
      PARTITION_ACTIONS mode = some code → n < 1 ∨ 256 < n →
      arm_partition true frames n mode = ⟨none, []⟩) ∧
    (∀ (frames : List (List Nat)) (n : Int), 1 ≤ n → n ≤ 256 →
      ∃ cmd, (disarm_partition true frames n).written = [cmd] ∧
        cmd.getD 5 0 = (n - 1).toNat) ∧
    (∀ (frames : List (List Nat)) (n : Int), n < 1 ∨ 256 < n →
      disarm_partition true frames n = ⟨none, []⟩) ∧
    (∀ (frames : List (List Nat)) (n : Int), 1 ≤ n → n ≤ 256 →
      ∃ cmd, (bypass_zone true frames n).written = [cmd] ∧
        cmd.getD 5 0 = (n - 1).toNat) ∧
    (∀ (frames : List (List Nat)) (n : Int), n < 1 ∨ 256 < n →
      bypass_zone true frames n = ⟨none, []⟩) := by
  refine ⟨?_, ?_, ?_, ?_, ?_, ?_⟩
  · intro frames mode code n hc h1 h256
    obtain ⟨cmd, hw, -, -, h5, -⟩ :=
      arm_partition_auth_spec frames n mode code hc h1 h256
    exact ⟨cmd, hw, h5⟩
  · intro frames mode code n hc hn
    have hb := build_perform_action_fails code (n - 1) 0x01 0x00 (by omega)
    simp [arm_partition, hc, hb]
  · intro frames n h1 h256
    obtain ⟨cmd, hw, -, -, h5⟩ := disarm_partition_auth_spec frames n h1 h256
    exact ⟨cmd, hw, h5⟩
  · intro frames n hn
    have hb := build_perform_action_fails 0x05 (n - 1) 0x01 0x00 (by omega)
    simp [disarm_partition, hb]
  · intro frames n h1 h256
    obtain ⟨cmd, hw, -, -, h5⟩ := bypass_zone_auth_spec frames n h1 h256
    exact ⟨cmd, hw, h5⟩
  · intro frames n hn
    have hb := build_perform_action_fails 0x10 (n - 1) 0x01 0x00 (by omega)
    simp [bypass_zone, hb]

/-- Witness for C10: zone 256 is accepted (argument byte 255) while zone 300
and partition 0 raise with nothing written. -/
theorem C10_witness :
    (∃ cmd, (bypass_zone true [] 256).written = [cmd] ∧
      cmd.getD 5 0 = ((256 : Int) - 1).toNat) ∧
    bypass_zone true [] 300 = ⟨none, []⟩ ∧
    arm_partition true [] 0 "arm" = ⟨none, []⟩ ∧
    disarm_partition true [] 0 = ⟨none, []⟩ := by
  obtain ⟨-, harm, -, hdis, hbyp_ok, hbyp⟩ := C10_argument_range_totality
  exact ⟨hbyp_ok [] 256 (by decide) (by decide),
    hbyp [] 300 (by norm_num),
    harm [] "arm" 4 0 (by decide) (by norm_num),
    hdis [] 0 (by norm_num)⟩

/-- C1 counterexample: the frame built by the InitiateCommunication builder
does not round trip through the generic parser: get_parser_by_command maps
0x72 to the response layout, whose Const 0xFF at offset 1 rejects the
request frame, so parse_message returns none instead of the builder's
fields. -/
theorem C1_counterexample :
    (build_initiate_communication 0x00).map parse_message = some none := by
  decide

/-- C1 amended: decoding each built request frame with that kind's own
struct parser recovers exactly the builder's fields with all reserved bytes
zero, but the generic parser selects the response layouts instead: 0x72
frames fail to parse entirely, while 0x40 and 0x50 frames decode as
PerformActionResponse and ReadEEPROMResponse records. -/
theorem C1_roundtrip_amended :
    (∀ u, u < 256 → ∃ f, build_initiate_communication u = some f ∧
      InitiateCommunication_parse f =
        some { command := 0x72, user_id := u, checksum := (0x72 + u) % 256 } ∧
      (∀ i, 1 ≤ i → i ≤ 34 → f.getD i 1 = 0) ∧
      parse_message f = none) ∧
    (∀ (a : Nat) (g : Int) (s u : Nat), a < 256 → 0 ≤ g → g < 256 →
      s < 256 → u < 256 →
      ∃ f, build_perform_action a g s u = some f ∧
        PerformAction_parse f = some
          { command := 0x40, reserved_0 := [0, 0, 0], action := a,
            argument := g.toNat, reserved_1 := List.replicate 27 0,
            source_id := s, user_id := u, checksum := u } ∧
        parse_message f = some (.performActionResp
          { command := 0x40,
            reserved_0 := 0 :: 0 :: 0 :: a :: g.toNat ::
              (List.replicate 27 0 ++ [s]),
            user_id := u, checksum := u })) ∧
    (∀ addr r s u, addr < 65536 → r < 256 → s < 256 → u < 256 →
      ∃ f, build_read_eeprom addr r s u = some f ∧
        ReadEEPROM_parse f = some
          { command := 0x50, reserved_0 := [0], address := addr,
            records := r, reserved_1 := List.replicate 28 0,
            source_id := s, user_id := u, checksum := u } ∧
        parse_message f = some (.readEEPROMResp
          { command := 0x50, reserved_0 := [0], address := addr,
            records := r, data := List.replicate 27 0, checksum := 0 })) ∧
    (get_parser_by_command 0x40 = some .performActionResponse ∧
     get_parser_by_command 0x50 = some .readEEPROMResponse ∧
     get_parser_by_command 0x72 = some .initiateCommunicationResponse) := by
  refine ⟨?_, ?_, ?_, by decide, by decide, by decide⟩
  · intro u hu
    have hchk : calculate_checksum (0x72 :: (List.replicate 34 0 ++ [u])) =
        (0x72 + u) % 256 := by
      simp [calculate_checksum]
    refine ⟨(0x72 :: (List.replicate 34 0 ++ [u])) ++ [(0x72 + u) % 256],
      ?_, by rfl, ?_, by rfl⟩
    · rw [← hchk]
      simp [build_initiate_communication, hu]
    · intro i h1 h2
      interval_cases i <;> rfl
  · intro a g s u h1 h2 h3 h4 h5
    refine ⟨(0x40 :: 0 :: 0 :: 0 :: a :: g.toNat ::
        (List.replicate 27 0 ++ [s, u, u])) ++
        [calculate_checksum (0x40 :: 0 :: 0 :: 0 :: a :: g.toNat ::
          (List.replicate 27 0 ++ [s, u, u]))],
      ?_, by rfl, by rfl⟩
    simp [build_perform_action, h1, h2, h3, h4, h5]
  · intro addr r s u ha hr hs hu
    have haddr : 256 * (addr / 256 % 256) + addr % 256 = addr := by omega
    refine ⟨(0x50 :: 0 :: (addr / 256 % 256) :: (addr % 256) :: r ::
        (List.replicate 28 0 ++ [s, u, u])) ++
        [calculate_checksum (0x50 :: 0 :: (addr / 256 % 256) ::
          (addr % 256) :: r :: (List.replicate 28 0 ++ [s, u, u]))],
      ?_, ?_, ?_⟩
    · simp [build_read_eeprom, hr, hs, hu]
    · have h0 : ReadEEPROM_parse ((0x50 :: 0 :: (addr / 256 % 256) ::
          (addr % 256) :: r :: (List.replicate 28 0 ++ [s, u, u])) ++
          [calculate_checksum (0x50 :: 0 :: (addr / 256 % 256) ::
            (addr % 256) :: r :: (List.replicate 28 0 ++ [s, u, u]))]) =
          some
            { command := 0x50, reserved_0 := [0],
              address := 256 * (addr / 256 % 256) + addr % 256,
              records := r, reserved_1 := List.replicate 28 0,
              source_id := s, user_id := u, checksum := u } := by rfl
      rw [haddr] at h0
      exact h0
    · have h0 : parse_message ((0x50 :: 0 :: (addr / 256 % 256) ::
          (addr % 256) :: r :: (List.replicate 28 0 ++ [s, u, u])) ++
          [calculate_checksum (0x50 :: 0 :: (addr / 256 % 256) ::
            (addr % 256) :: r :: (List.replicate 28 0 ++ [s, u, u]))]) =
          some (.readEEPROMResp
            { command := 0x50, reserved_0 := [0],
              address := 256 * (addr / 256 % 256) + addr % 256,
              records := r, data := List.replicate 27 0,
              checksum := 0 }) := by rfl
      rw [haddr] at h0
      exact h0

/-- Witness for C1 amended at concrete arguments. -/
theorem C1_witness :
    (∃ f, build_initiate_communication 0x00 = some f ∧
      InitiateCommunication_parse f =
        some { command := 0x72, user_id := 0, checksum := (0x72 + 0) % 256 } ∧
      (∀ i, 1 ≤ i → i ≤ 34 → f.getD i 1 = 0) ∧ parse_message f = none) ∧
    (∃ f, build_perform_action 4 2 1 0 = some f ∧
      PerformAction_parse f = some
        { command := 0x40, reserved_0 := [0, 0, 0], action := 4,
          argument := (2 : Int).toNat, reserved_1 := List.replicate 27 0,
          source_id := 1, user_id := 0, checksum := 0 } ∧
      parse_message f = some (.performActionResp
        { command := 0x40,
          reserved_0 := 0 :: 0 :: 0 :: 4 :: (2 : Int).toNat ::
            (List.replicate 27 0 ++ [1]),
          user_id := 0, checksum := 0 })) ∧
    (∃ f, build_read_eeprom 0x1234 3 1 0 = some f ∧
      ReadEEPROM_parse f = some
        { command := 0x50, reserved_0 := [0], address := 0x1234,
          records := 3, reserved_1 := List.replicate 28 0,
          source_id := 1, user_id := 0, checksum := 0 } ∧
      parse_message f = some (.readEEPROMResp
        { command := 0x50, reserved_0 := [0], address := 0x1234,
          records := 3, data := List.replicate 27 0, checksum := 0 })) := by
  obtain ⟨h1, h2, h3, -⟩ := C1_roundtrip_amended
  exact ⟨h1 0x00 (by decide),
    h2 4 2 1 0 (by decide) (by decide) (by decide) (by decide) (by decide),
    h3 0x1234 3 1 0 (by decide) (by decide) (by decide) (by decide)⟩

/-- C2 counterexample: mutating byte 1 of a valid 0x41 response frame from 0
to 5 without recomputing the trailing checksum leaves a frame that
validate_checksum rejects, yet parse_message still decodes it successfully,
so decode does not fail with ChecksumMismatch. -/
theorem C2_counterexample :
    validate_checksum (0x41 :: 0 :: (List.replicate 34 0 ++ [0x41])) = true ∧
    validate_checksum (0x41 :: 5 :: (List.replicate 34 0 ++ [0x41])) = false ∧
    parse_message (0x41 :: 5 :: (List.replicate 34 0 ++ [0x41])) =
      some (.performActionResp
        { command := 0x41, reserved_0 := 5 :: List.replicate 32 0,
          user_id := 0, checksum := 0 }) := by
  exact ⟨by decide, by decide, by decide⟩

/-- C2 amended: validate_checksum accepts a frame of at least 2 bytes exactly
when its trailing byte is the mod-256 sum of the preceding bytes, but the
decode path never invokes it: every 37-byte frame with command byte 0x41
decodes successfully whatever its trailing byte holds. -/
theorem C2_checksum_amended :
    (∀ data : List Nat, 2 ≤ data.length →
      (validate_checksum data = true ↔
        data.getLastD 0 = data.dropLast.sum % 256)) ∧
    (∀ b1 b2 b3 b4 b5 b6 b7 b8 b9 b10 b11 b12 b13 b14 b15 b16 b17 b18 b19
       b20 b21 b22 b23 b24 b25 b26 b27 b28 b29 b30 b31 b32 b33 b34 b35
       b36 : Nat,
      parse_message (0x41 :: b1 :: b2 :: b3 :: b4 :: b5 :: b6 :: b7 :: b8 ::
          b9 :: b10 :: b11 :: b12 :: b13 :: b14 :: b15 :: b16 :: b17 :: b18 ::
          b19 :: b20 :: b21 :: b22 :: b23 :: b24 :: b25 :: b26 :: b27 ::
          b28 :: b29 :: b30 :: b31 :: b32 :: b33 :: b34 :: b35 :: [b36]) =
        some (.performActionResp
          { command := 0x41,
            reserved_0 := [b1, b2, b3, b4, b5, b6, b7, b8, b9, b10, b11, b12,
              b13, b14, b15, b16, b17, b18, b19, b20, b21, b22, b23, b24, b25,
              b26, b27, b28, b29, b30, b31, b32, b33],
            user_id := b34, checksum := b35 })) := by
  constructor
  · intro data h
    unfold validate_checksum
    rw [if_neg (by omega)]
    simp [calculate_checksum]
  · intros
    rfl

/-- Witness for C2 amended at concrete frames. -/
theorem C2_witness :
    (validate_checksum [0x41, 5, 0x46] = true ↔
      [0x41, 5, 0x46].getLastD 0 = [0x41, 5, 0x46].dropLast.sum % 256) ∧
    parse_message (0x41 :: 1 :: 2 :: 3 :: 4 :: 5 :: 6 :: 7 :: 8 ::
        9 :: 10 :: 11 :: 12 :: 13 :: 14 :: 15 :: 16 :: 17 :: 18 ::
        19 :: 20 :: 21 :: 22 :: 23 :: 24 :: 25 :: 26 :: 27 ::
        28 :: 29 :: 30 :: 31 :: 32 :: 33 :: 34 :: 35 :: [99]) =
      some (.performActionResp
        { command := 0x41,
          reserved_0 := [1, 2, 3, 4, 5, 6, 7, 8, 9, 10, 11, 12,
            13, 14, 15, 16, 17, 18, 19, 20, 21, 22, 23, 24, 25,
            26, 27, 28, 29, 30, 31, 32, 33],
          user_id := 34, checksum := 35 }) := by
  obtain ⟨h1, h2⟩ := C2_checksum_amended
  exact ⟨h1 [0x41, 5, 0x46] (by decide),
    h2 1 2 3 4 5 6 7 8 9 10 11 12 13 14 15 16 17 18 19 20 21 22 23 24 25 26
      27 28 29 30 31 32 33 34 35 99⟩

/-- C8 counterexample: in sample_identity_frame the bytes at offsets 27 and
28 are 77 and 88, yet the decoded source_id and user_id are 99 and 111, the
bytes at offsets 29 and 30; the identity returned by the handshake carries
source_id 99, not the byte at offset 27. -/
theorem C8_counterexample :
    (InitiateCommunicationResponse_parse sample_identity_frame).map
        (fun f => (f.source_id, f.user_id)) = some (99, 111) ∧
    sample_identity_frame.getD 27 0 = 77 ∧
    sample_identity_frame.getD 28 0 = 88 ∧
    sample_identity_frame.getD 29 0 = 99 ∧
    sample_identity_frame.getD 30 0 = 111 ∧
    (initiate_communication [sample_identity_frame]).result =
      some (some
        { product_id := 4, firmware_version := (1, 2, 3), panel_id := 1234,
          pc_password := [0xAA, 0xBB], source_id := 99 }) := by
  exact ⟨by decide, by decide, by decide, by decide, by decide, by decide⟩

/-- C8 amended: for every 37-byte frame with command 0x72 and result 0xFF,
decoding extracts product_id from offset 6, the firmware triple from offsets
7..9, panel_id big-endian from offsets 10..11, pc_password from offsets
12..13, source_id from offset 29 and user_id from offset 30 (offset 14 is
modem_speed and offsets 15..28 are reserved); the handshake stores
product_id, firmware, panel_id, pc_password and source_id in the returned
identity, while user_id is decoded but not stored. -/
theorem C8_handshake_layout_amended (b2 b3 b4 b5 b6 b7 b8 b9 b10 b11 b12 b13
    b14 b15 b16 b17 b18 b19 b20 b21 b22 b23 b24 b25 b26 b27 b28 b29 b30 b31
    b32 b33 b34 b35 b36 : Nat) :
    InitiateCommunicationResponse_parse (0x72 :: 0xFF :: b2 :: b3 :: b4 ::
        b5 :: b6 :: b7 :: b8 :: b9 :: b10 :: b11 :: b12 :: b13 :: b14 ::
        b15 :: b16 :: b17 :: b18 :: b19 :: b20 :: b21 :: b22 :: b23 :: b24 ::
        b25 :: b26 :: b27 :: b28 :: b29 :: b30 :: b31 :: b32 :: b33 :: b34 ::
        b35 :: [b36]) =
      some
        { command := 0x72, result := 0xFF, reserved_0 := [b2, b3, b4, b5],
          product_id := b6,
          firmware_version := { version := b7, revision := b8, minor := b9 },
          panel_id := 256 * b10 + b11, pc_password := [b12, b13],
          modem_speed := b14,
          reserved_1 := [b15, b16, b17, b18, b19, b20, b21, b22, b23, b24,
            b25, b26, b27, b28],
          source_id := b29, user_id := b30,
          receiver_line := [b31, b32, b33, b34], reserved_2 := [b35],
          checksum := b36 } ∧
    (initiate_communication [0x72 :: 0xFF :: b2 :: b3 :: b4 ::
        b5 :: b6 :: b7 :: b8 :: b9 :: b10 :: b11 :: b12 :: b13 :: b14 ::
        b15 :: b16 :: b17 :: b18 :: b19 :: b20 :: b21 :: b22 :: b23 :: b24 ::
        b25 :: b26 :: b27 :: b28 :: b29 :: b30 :: b31 :: b32 :: b33 :: b34 ::
        b35 :: [b36]]).result =
      some (some
        { product_id := b6, firmware_version := (b7, b8, b9),
          panel_id := 256 * b10 + b11, pc_password := [b12, b13],
          source_id := b29 }) ∧
    (initiate_communication [0x72 :: 0xFF :: b2 :: b3 :: b4 ::
        b5 :: b6 :: b7 :: b8 :: b9 :: b10 :: b11 :: b12 :: b13 :: b14 ::
        b15 :: b16 :: b17 :: b18 :: b19 :: b20 :: b21 :: b22 :: b23 :: b24 ::
        b25 :: b26 :: b27 :: b28 :: b29 :: b30 :: b31 :: b32 :: b33 :: b34 ::
        b35 :: [b36]]).written =
      [0x72 :: (List.replicate 34 0 ++ [0x00, 0x72])] :=
  ⟨rfl, rfl, rfl⟩

/-- C9: a stream holding one 37-byte live-event frame with command 0xE1,
partition 2 and label "Front Door" padded with NULs yields exactly one event
record with partition 2 and the NUL-stripped label; frames outside the
0xE0..0xEF range yield nothing, an undecodably short event frame is skipped
without ending the loop, and the loop goes on to further frames. -/
theorem C9_event_monitoring :
    monitor_events front_door_frame = [front_door_event] ∧
    front_door_event.partition = 2 ∧
    front_door_event.label =
      [0x46, 0x72, 0x6F, 0x6E, 0x74, 0x20, 0x44, 0x6F, 0x6F, 0x72] ∧
    monitor_events ((0x40 :: List.replicate 36 0) ++ front_door_frame) =
      [front_door_event] ∧
    monitor_events (front_door_frame ++ [0xE1, 0x00, 0x00]) =
      [front_door_event] ∧
    monitor_events [0xE1, 0x00, 0x00] = [] := by
  exact ⟨by decide, by decide, by decide, by decide, by decide, by decide⟩

/-- C4 counterexample: the 4-character string "+1+2" contains the non-hex
character at code 43, yet encode_password accepts it and packs [0x01, 0x02],
because Python's int(-, 16) tolerates a sign before a digit; so rejection is
not equivalent to having a non-hex character. -/
theorem C4_counterexample :
    encode_password "+1+2" = some [0x01, 0x02] ∧
    ("+1+2").toList.length = 4 ∧
    ("+1+2").toList.getD 0 (Char.ofNat 0) = Char.ofNat 43 ∧
    is_hex_digit (Char.ofNat 43) = false := by
  exact ⟨by decide, by decide, by decide, by decide⟩

/-- C4 amended: a password is rejected before any write when its length is
not 4 or either 2-character half is not accepted by Python's base-16 integer
conversion; every all-hex 4-character string is packed into the two pair
values, "0000" and "abcd" pack as stated, "12" and "zzzz" are rejected, and
a rejected password reaches the transport with no bytes written. -/
theorem C4_password_encoding_amended :
    (∀ s : String, s.toList.length ≠ 4 → encode_password s = none) ∧
    (∀ a b c d : Char, is_hex_digit a = true → is_hex_digit b = true →
      is_hex_digit c = true → is_hex_digit d = true →
      ∀ s : String, s.toList = [a, b, c, d] →
      encode_password s =
        some [16 * hex_val a + hex_val b, 16 * hex_val c + hex_val d]) ∧
    encode_password "0000" = some [0x00, 0x00] ∧
    encode_password "abcd" = some [0xAB, 0xCD] ∧
    encode_password "12" = none ∧
    encode_password "zzzz" = none ∧
    (∀ (info : PanelInfo) (frames : List (List Nat)) (password : String),
      encode_password password = none →
      initialize_communication (some info) password frames = ⟨none, []⟩) := by
  refine ⟨?_, ?_, by decide, by decide, by decide, by decide, ?_⟩
  · intro s h
    unfold encode_password
    split
    · rename_i a b c d heq
      rw [heq] at h
      simp at h
    · rfl
  · intro a b c d ha hb hc hd s hs
    have h16a := hex_val_lt a
    have h16b := hex_val_lt b
    have h16c := hex_val_lt c
    have h16d := hex_val_lt d
    unfold encode_password
    rw [hs]
    simp only [py_int_hex2, ha, hb, hc, hd, Bool.and_self, if_true]
    rw [if_pos ⟨by positivity, by push_cast; omega, by positivity,
      by push_cast; omega⟩]
    simp
    omega
  · intro info frames password h
    simp [initialize_communication, h]

/-- Witness for C4 amended at concrete passwords. -/
theorem C4_witness :
    encode_password "12" = none ∧
    encode_password "abcd" =
      some [16 * hex_val (Char.ofNat 97) + hex_val (Char.ofNat 98),
            16 * hex_val (Char.ofNat 99) + hex_val (Char.ofNat 100)] ∧
    initialize_communication
        (some { product_id := 4, firmware_version := (1, 2, 3),
                panel_id := 1234, pc_password := [0xAA, 0xBB],
                source_id := 1 }) "zzzz" [] = ⟨none, []⟩ := by
  obtain ⟨h1, h2, -, -, -, -, h7⟩ := C4_password_encoding_amended
  exact ⟨h1 "12" (by decide),
    h2 (Char.ofNat 97) (Char.ofNat 98) (Char.ofNat 99) (Char.ofNat 100)
      (by decide) (by decide) (by decide) (by decide) "abcd" (by decide),
    h7 _ [] "zzzz" (by decide)⟩

end Paradox
